import Mathlib

/-!
Shallow embedding of the course-management backend (course service),
translated from:
  * `backend/services/courses/server.js`  (route handlers, upload pipeline)
  * `backend/config/redis.js`             (cache adapter)
  * `backend/config/elasticsearch.js`     (search adapter)
  * `backend/services/courses/models/Course.js` (mongoose schema)

Modelling conventions:
  * JSON numbers are modelled as `Int` (integer-valued inputs suffice for all
    claims; `parseFloat(x) || 0` is modelled by an integer parser with
    fallback 0, and `$avg`/`$round(x,2)` by fixed-point `×100` integer
    division).
  * Mongo, Redis and Elasticsearch states are association lists; Redis
    entries carry an absolute expiry instant, and handlers take the current
    instant `now : Nat`.
  * Mongo ObjectId casting is modelled: a query naming `_id` rejects with a
    `CastError` (mongoose casts every `$or` branch) unless the identifier is
    a 24-character hex string or a 12-character string, in which case `_id`
    comparison is string equality. Regex matching (`new RegExp(s, 'i')`) is
    modelled as case-insensitive substring containment; Elasticsearch
    relevance scoring is abstracted to this match predicate with
    creation-time ordering.
  * A JS response object that omits a field is modelled with `Option`
    (`cached : Option Bool` is `none` exactly when the handler builds the
    response without a `cached` key).
-/

namespace CourseService

/-! ### String and list utilities -/

/-- Prefix test on character lists. -/
def listPrefix : List Char → List Char → Bool
  | [], _ => true
  | _ :: _, [] => false
  | a :: as, b :: bs => a == b && listPrefix as bs

/-- Infix (substring) test on character lists. -/
def listInfix : List Char → List Char → Bool
  | n, [] => listPrefix n []
  | n, h :: hs => listPrefix n (h :: hs) || listInfix n hs

/-- `s.trim()`: strip leading and trailing whitespace. (Character-list
implementation: the core `String` routines are byte-position loops that the
kernel cannot evaluate.) -/
def sTrim (s : String) : String :=
  ⟨((s.data.dropWhile Char.isWhitespace).reverse.dropWhile Char.isWhitespace).reverse⟩

/-- `s.toUpperCase()`. -/
def sToUpper (s : String) : String := ⟨s.data.map Char.toUpper⟩

/-- `s.toLowerCase()`. -/
def sToLower (s : String) : String := ⟨s.data.map Char.toLower⟩

def splitOnCharAux (c : Char) : List Char → List (List Char)
  | [] => [[]]
  | a :: as =>
      let r := splitOnCharAux c as
      if a = c then [] :: r
      else
        match r with
        | [] => [[a]]
        | g :: gs => (a :: g) :: gs

/-- `s.split(c)` (JS semantics: `"".split(c) = [""]`, trailing separator
yields a trailing empty field). -/
def sSplitOnChar (c : Char) (s : String) : List String :=
  (splitOnCharAux c s.data).map (fun l => ⟨l⟩)

/-- `parts.join(sep)`. -/
def sIntercalate (sep : String) : List String → String
  | [] => ""
  | [x] => x
  | x :: y :: xs => x ++ sep ++ sIntercalate sep (y :: xs)

/-- `parts.join('')`. -/
def sJoin (l : List String) : String := l.foldl (fun a b => a ++ b) ""

/-- `s.substring(0, n)`. -/
def sTake (s : String) (n : Nat) : String := ⟨s.data.take n⟩

/-- Case-insensitive substring containment; models `new RegExp(needle, 'i').test(hay)`
for needles without regex metacharacters. -/
def containsCI (hay needle : String) : Bool :=
  listInfix (needle.data.map Char.toLower) (hay.data.map Char.toLower)

/-- Last `n` characters of a string; models JS `s.slice(-n)`. -/
def strTakeRight (s : String) (n : Nat) : String :=
  ⟨s.data.drop (s.data.length - n)⟩

/-- Integer parse of a decimal digit string; models `parseFloat` restricted to
the integer-valued inputs used throughout the claims. -/
def parseNum (s : String) : Option Int :=
  let t := sTrim s
  if t.data ≠ [] ∧ t.data.all Char.isDigit then
    some (Int.ofNat (t.data.foldl (fun a c => a * 10 + (c.toNat - 48)) 0))
  else none

/-- Models `parseFloat(x) || 0` on an optional field. -/
def parseNumOr0 (s : Option String) : Int :=
  match s with
  | none => 0
  | some v => (parseNum v).getD 0

/-- JS truthiness on an optional string: `undefined` and `''` are falsy. -/
def falsyStr : Option String → Bool
  | none => true
  | some v => v = ""

/-- Models `x || d` for an optional string parameter. -/
def falsyOr (o : Option String) (d : String) : String :=
  if falsyStr o then d else o.getD d

/-- Drops absent-or-empty optional parameters (models `if (x) { ... }`). -/
def optNE (o : Option String) : Option String :=
  if falsyStr o then none else o

/-- Ceiling division; models `Math.ceil(total / size)` on naturals. -/
def natCeilDiv (a b : Nat) : Nat := (a + b - 1) / b

/-- Insertion step for a sort predicate `le` (a before b when `le a b`). -/
def insertSorted {α : Type} (le : α → α → Bool) (x : α) : List α → List α
  | [] => [x]
  | y :: ys => if le x y then x :: y :: ys else y :: insertSorted le x ys

/-- Insertion sort; models the ordering applied by the store / index queries. -/
def sortByB {α : Type} (le : α → α → Bool) : List α → List α
  | [] => []
  | x :: xs => insertSorted le x (sortByB le xs)

/-- Distinct values in first-occurrence order (the `$group` key set). -/
def dedupKeepFirst : List String → List String
  | [] => []
  | x :: xs => x :: (dedupKeepFirst xs).filter (fun y => decide (y ≠ x))

/-! ### Association lists (document index / cache keyspace) -/

/-- First value bound to `k`. -/
def alistLookup {β : Type} (k : String) : List (String × β) → Option β
  | [] => none
  | p :: ps => if p.1 = k then some p.2 else alistLookup k ps

/-- Upsert: replace the first binding of `k`, else append; models both a
Redis `SETEX` and an Elasticsearch `index` (document overwrite by id). -/
def alistIns {β : Type} (k : String) (v : β) : List (String × β) → List (String × β)
  | [] => [(k, v)]
  | p :: ps => if p.1 = k then (k, v) :: ps else p :: alistIns k v ps

/-- Remove every binding of `k`; models Redis `DEL key` (an exact key, no
glob expansion). -/
def alistDel {β : Type} (k : String) (l : List (String × β)) : List (String × β) :=
  l.filter (fun p => decide (p.1 ≠ k))

theorem alistLookup_ins_self {β : Type} (k : String) (v : β) (l : List (String × β)) :
    alistLookup k (alistIns k v l) = some v := by
  induction l with
  | nil => simp [alistIns, alistLookup]
  | cons p ps ih =>
      by_cases h : p.1 = k
      · simp [alistIns, h, alistLookup]
      · simp [alistIns, h, alistLookup, ih]

theorem alistLookup_ins_other {β : Type} (k k' : String) (v : β) (l : List (String × β))
    (hne : k ≠ k') : alistLookup k (alistIns k' v l) = alistLookup k l := by
  have hne' : ¬ (k' = k) := fun h => hne h.symm
  induction l with
  | nil => simp [alistIns, alistLookup, hne']
  | cons p ps ih =>
      by_cases h : p.1 = k'
      · simp [alistIns, h, alistLookup, hne']
      · by_cases h2 : p.1 = k
        · simp [alistIns, h, alistLookup, h2, hne]
        · simp [alistIns, h, alistLookup, h2, ih]

/-- Re-upserting a value the list already binds (as its first `k`-binding)
changes nothing. -/
theorem alistIns_of_lookup {β : Type} (k : String) (v : β) (l : List (String × β))
    (h : alistLookup k l = some v) : alistIns k v l = l := by
  induction l with
  | nil => simp [alistLookup] at h
  | cons p ps ih =>
      obtain ⟨a, b⟩ := p
      by_cases hk : a = k
      · subst hk
        simp [alistLookup] at h
        simp [alistIns, h]
      · simp [alistLookup, hk] at h
        simp [alistIns, hk, ih h]

/-! ### Data model (`models/Course.js`) -/

/-- A persisted catalog record, as it sits in the Mongo collection. -/
structure Course where
  mongoId : String
  course_id : String
  title : String
  description : String
  category : String
  instructor : String
  duration : Int
  level : String
  price : Int
  enrollments : Int
  rating : Int
  tags : List String
  prerequisites : List String
  learning_outcomes : List String
  thumbnail_url : String
  status : String
  created_by : String
  created_at : Nat
  updated_at : Nat
deriving DecidableEq, Repr

/-- The argument of `new Course(...)`: a JS object whose fields may be
absent (`none`). -/
structure CourseInput where
  course_id : Option String := none
  title : Option String := none
  description : Option String := none
  category : Option String := none
  instructor : Option String := none
  duration : Option Int := none
  level : Option String := none
  price : Option Int := none
  enrollments : Option Int := none
  rating : Option Int := none
  tags : List String := []
  prerequisites : List String := []
  learning_outcomes : List String := []
  thumbnail_url : Option String := none
  status : Option String := none
  created_by : Option String := none
deriving DecidableEq, Repr

/-- Closed category set (schema `enum` and the upload handler's list). -/
def validCategories : List String :=
  ["Programming", "Data Science", "Web Development", "Mobile Development",
   "Machine Learning", "DevOps", "Database", "Cloud Computing",
   "Cybersecurity", "UI/UX Design", "Digital Marketing", "Business", "Other"]

/-- Closed level set. -/
def validLevels : List String := ["Beginner", "Intermediate", "Advanced"]

def defaultThumb : String :=
  "https://images.pexels.com/photos/3861958/pexels-photo-3861958.jpeg"

/-- Mongoose setters: `trim` on text fields, `uppercase` on `course_id`,
`trim`+`lowercase` on tags. -/
def applySetters (cd : CourseInput) : CourseInput :=
  { cd with
    course_id := cd.course_id.map (fun v => sToUpper (sTrim v)),
    title := cd.title.map sTrim,
    description := cd.description.map sTrim,
    category := cd.category.map sTrim,
    instructor := cd.instructor.map sTrim,
    tags := cd.tags.map (fun t => sToLower (sTrim t)),
    prerequisites := cd.prerequisites.map sTrim,
    learning_outcomes := cd.learning_outcomes.map sTrim,
    thumbnail_url := cd.thumbnail_url.map sTrim }

/-- Mongoose defaults, applied at document creation for absent fields. -/
def applyDefaults (cd : CourseInput) : CourseInput :=
  { cd with
    level := some (cd.level.getD "Beginner"),
    price := some (cd.price.getD 0),
    enrollments := some (cd.enrollments.getD 0),
    rating := some (cd.rating.getD 0),
    thumbnail_url := some (cd.thumbnail_url.getD defaultThumb),
    status := some (cd.status.getD "published"),
    created_by := some (cd.created_by.getD "admin") }

/-- A required string field fails on an absent or empty value. -/
def reqStr (o : Option String) : Bool := falsyStr o

/-- Schema validation; returns the offending field names (mongoose
`ValidationError.errors` keys). -/
def validateDoc (cd : CourseInput) : List String :=
  (if reqStr cd.course_id then ["course_id"] else []) ++
  (match cd.title with
   | none => ["title"]
   | some t => if t = "" ∨ t.length < 3 ∨ 200 < t.length then ["title"] else []) ++
  (match cd.description with
   | none => ["description"]
   | some d => if d = "" ∨ d.length < 10 ∨ 2000 < d.length then ["description"] else []) ++
  (match cd.category with
   | none => ["category"]
   | some c => if c = "" ∨ c ∉ validCategories then ["category"] else []) ++
  (match cd.instructor with
   | none => ["instructor"]
   | some i => if i = "" ∨ i.length < 2 ∨ 100 < i.length then ["instructor"] else []) ++
  (match cd.duration with
   | none => ["duration"]
   | some d => if d < 1 ∨ 1000 < d then ["duration"] else []) ++
  (match cd.level with
   | none => []
   | some l => if l ∉ validLevels then ["level"] else []) ++
  (match cd.price with
   | none => []
   | some p => if p < 0 then ["price"] else []) ++
  (match cd.enrollments with
   | none => []
   | some e => if e < 0 then ["enrollments"] else []) ++
  (match cd.rating with
   | none => []
   | some r => if r < 0 ∨ 5 < r then ["rating"] else []) ++
  (match cd.status with
   | none => []
   | some s => if s ∉ ["draft", "published", "archived"] then ["status"] else [])

/-- `pre('save')` hook: derive a `course_id` from the title and timestamp
when it is absent. Note mongoose runs schema validation before user
`pre('save')` hooks, so with `course_id` required this branch is only
reached with a non-blank `course_id` and is then a no-op. -/
def genCourseId (title : String) (now : Nat) : String :=
  sTake (sJoin ((sSplitOnChar ' ' title).map (fun w => sToUpper (sTake w 1)))) 4 ++
    strTakeRight (toString now) 4

def preSaveHook (cd : CourseInput) (now : Nat) : CourseInput :=
  if falsyStr cd.course_id then
    { cd with course_id := some (genCourseId (cd.title.getD "") now) }
  else cd

inductive SaveErr : Type where
  | validation (fields : List String) : SaveErr
  | duplicate : SaveErr
deriving DecidableEq, Repr

/-- Fresh 24-hex ObjectId strings, standing in for Mongo's generated `_id`s
(a zero-padded counter in place of the timestamp/random bytes). -/
def freshOid (nid : Nat) : String :=
  ⟨List.replicate (24 - (toString nid).data.length) 'a' ++ (toString nid).data⟩

/-- Builds the persisted record from a fully-defaulted document. -/
def mkCourse (cd : CourseInput) (mongoId : String) (now : Nat) : Course :=
  { mongoId := mongoId,
    course_id := cd.course_id.getD "",
    title := cd.title.getD "",
    description := cd.description.getD "",
    category := cd.category.getD "",
    instructor := cd.instructor.getD "",
    duration := cd.duration.getD 0,
    level := cd.level.getD "Beginner",
    price := cd.price.getD 0,
    enrollments := cd.enrollments.getD 0,
    rating := cd.rating.getD 0,
    tags := cd.tags,
    prerequisites := cd.prerequisites,
    learning_outcomes := cd.learning_outcomes,
    thumbnail_url := cd.thumbnail_url.getD defaultThumb,
    status := cd.status.getD "published",
    created_by := cd.created_by.getD "admin",
    created_at := now,
    updated_at := now }

/-- `new Course(data); course.save()`: setters and defaults, schema
validation (`ValidationError`), then the insert, on which the store's
unique index on `course_id` raises `E11000` (`duplicate`). -/
def mongooseSave (store : List Course) (input : CourseInput) (now : Nat) (nid : Nat) :
    Except SaveErr Course :=
  let doc := applyDefaults (applySetters input)
  let errs := validateDoc doc
  if errs ≠ [] then .error (.validation errs)
  else
    let doc := preSaveHook doc now
    if store.any (fun c => c.course_id = doc.course_id.getD "") then .error .duplicate
    else .ok (mkCourse doc (freshOid nid) now)

/-! ### Query-result payloads -/

/-- The pagination block every list/search payload carries. -/
structure Pagination where
  current_page : Nat
  total_pages : Nat
  total_items : Nat
  items_per_page : Nat
  has_next : Bool
  has_prev : Bool
deriving DecidableEq, Repr

def mkPagination (page size total : Nat) : Pagination :=
  { current_page := page,
    total_pages := natCeilDiv total size,
    total_items := total,
    items_per_page := size,
    has_next := decide (page < natCeilDiv total size),
    has_prev := decide (1 < page) }

/-- Payload of `GET /api/courses`. -/
structure ListResult where
  courses : List Course
  pagination : Pagination
deriving DecidableEq, Repr

/-- Document held by the search index (`indexCourse` body). -/
structure ESDoc where
  course_id : String
  title : String
  description : String
  category : String
  instructor : String
  duration : Int
  created_at : Nat
  updated_at : Nat
deriving DecidableEq, Repr

/-- A search hit: the `_source` plus the document `_id`. -/
structure SearchHit where
  id : String
  doc : ESDoc
deriving DecidableEq, Repr

/-- Payload of `GET /api/courses/search`. -/
structure SearchResult where
  courses : List SearchHit
  pagination : Pagination
  query : String
deriving DecidableEq, Repr

/-- Overview aggregate. `$avg` + `$round(x, 2)` is modelled in fixed point:
`averageRating100` holds `100 ×` the average, by integer division. -/
structure StatsOverview where
  totalCourses : Nat
  totalEnrollments : Int
  averageRating100 : Int
  averageDuration10 : Int
  averagePrice100 : Int
deriving DecidableEq, Repr

structure CatStat where
  category : String
  courseCount : Nat
  totalEnrollments : Int
  averageRating100 : Int
deriving DecidableEq, Repr

/-- Payload of `GET /api/courses/stats/overview`. -/
structure StatsResult where
  overview : StatsOverview
  categories : List CatStat
deriving DecidableEq, Repr

/-! ### Cache adapter (`config/redis.js`) -/

/-- A cache value is any payload the service serializes into Redis. -/
inductive CacheVal : Type where
  | listV : ListResult → CacheVal
  | courseV : Course → CacheVal
  | searchV : SearchResult → CacheVal
  | statsV : StatsResult → CacheVal
deriving DecidableEq, Repr

/-- Redis: connection flag plus keyed entries `(value, absolute expiry)`. -/
structure RedisState where
  isConnected : Bool
  entries : List (String × (CacheVal × Nat))
deriving DecidableEq, Repr

/-- `RedisClient.get`: skipped (miss) when disconnected; an entry past its
TTL expiry is gone. -/
def rget (r : RedisState) (now : Nat) (k : String) : Option CacheVal :=
  if r.isConnected then
    match alistLookup k r.entries with
    | some (v, exp) => if now < exp then some v else none
    | none => none
  else none

/-- `RedisClient.set` (`SETEX key ttl value`): skipped when disconnected. -/
def rset (r : RedisState) (now : Nat) (k : String) (v : CacheVal) (ttl : Nat) : RedisState :=
  if r.isConnected then { r with entries := alistIns k (v, now + ttl) r.entries }
  else r

/-- `RedisClient.del key`: deletes exactly the named key (Redis `DEL` does
not expand glob patterns); skipped when disconnected. -/
def rdel (r : RedisState) (k : String) : RedisState :=
  if r.isConnected then { r with entries := alistDel k r.entries }
  else r

/-- `getCacheKey(prefix, ...params)`. -/
def getCacheKey (pre : String) (params : List String) : String :=
  "courses:" ++ pre ++ ":" ++ sIntercalate ":" params

/-! ### Search adapter (`config/elasticsearch.js`) -/

/-- Elasticsearch: connection flag plus documents keyed by `_id`. -/
structure ESState where
  isConnected : Bool
  docs : List (String × ESDoc)
deriving DecidableEq, Repr

def esHealthy (es : ESState) : Bool := es.isConnected

def docOf (c : Course) : ESDoc :=
  { course_id := c.course_id, title := c.title, description := c.description,
    category := c.category, instructor := c.instructor, duration := c.duration,
    created_at := c.created_at, updated_at := c.updated_at }

/-- `ElasticsearchClient.indexCourse`: upsert by `_id`; a no-op (returning
`false` in the source) when the adapter is unavailable. -/
def indexCourse (es : ESState) (c : Course) : ESState :=
  if es.isConnected then { es with docs := alistIns c.mongoId (docOf c) es.docs }
  else es

/-- Multi-field match with the term filters of `searchCourses`; relevance
scoring is abstracted to this predicate (the external engine is out of
scope), ordering to creation-time descending. -/
def docMatches (q : String) (cat inst : Option String) (d : ESDoc) : Bool :=
  (if q = "" then true
   else containsCI d.title q || containsCI d.description q ||
        containsCI d.instructor q || containsCI d.category q) &&
  (match optNE cat with | some cv => decide (d.category = cv) | none => true) &&
  (match optNE inst with | some iv => decide (d.instructor = iv) | none => true)

structure ESSearchOut where
  hits : List SearchHit
  total : Nat
deriving DecidableEq, Repr

/-- `ElasticsearchClient.searchCourses`: empty results when unavailable,
otherwise match + sort + paginate. -/
def searchCoursesES (es : ESState) (q : String) (cat inst : Option String)
    (page size : Nat) : ESSearchOut :=
  if es.isConnected then
    let ms := es.docs.filter (fun p => docMatches q cat inst p.2)
    let sorted := sortByB (fun a b => decide (b.2.created_at ≤ a.2.created_at)) ms
    { hits := ((sorted.drop ((page - 1) * size)).take size).map (fun p => ⟨p.1, p.2⟩),
      total := ms.length }
  else { hits := [], total := 0 }

/-! ### Service state and responses (`services/courses/server.js`) -/

/-- The mutable world the course service touches: the Mongo collection, the
cache, the index, and a counter generating fresh ObjectIds. -/
structure ServiceState where
  store : List Course
  redis : RedisState
  es : ESState
  nextId : Nat
deriving DecidableEq, Repr

/-- Response of the four read routes. `cached = none` models a JSON body
built without a `cached` key; `data = none` models an error body. -/
structure ReadResp where
  status : Nat
  success : Bool
  data : Option CacheVal
  cached : Option Bool
deriving DecidableEq, Repr

/-- Response of `POST /api/courses/upload`. `saved_count` is the JS field
`data.saved_courses` (a count) and `courses` is `data.courses`. -/
structure UploadResp where
  status : Nat
  success : Bool
  message : String
  total_rows : Nat := 0
  valid_courses : Nat := 0
  saved_count : Nat := 0
  courses : List Course := []
  errors : List String := []
deriving DecidableEq, Repr

/-- Response of `POST /api/courses`. -/
structure CreateResp where
  status : Nat
  success : Bool
  course : Option Course := none
  errorFields : List String := []
deriving DecidableEq, Repr

/-- `authenticateToken`: `authHeader && authHeader.split(' ')[1]`. -/
def tokenOf (authHeader : Option String) : Option String :=
  authHeader.bind (fun h => (sSplitOnChar ' ' h).get? 1)

/-! ### `GET /api/courses` (list) -/

/-- Query parameters after `parseInt`, with destructuring defaults. -/
structure ListQuery where
  page : Nat := 1
  limit : Nat := 10
  category : Option String := none
  instructor : Option String := none
  level : Option String := none
  status : String := "published"
  sort : String := "created_at"
  order : String := "desc"
  search : Option String := none
deriving DecidableEq, Repr

def listKey (q : ListQuery) : String :=
  getCacheKey "list"
    [toString q.page, toString q.limit, falsyOr q.category "all",
     falsyOr q.instructor "all", falsyOr q.level "all", q.status, q.sort,
     q.order, falsyOr q.search "none"]

/-- The Mongo filter built by the handler. -/
def courseMatchesList (q : ListQuery) (c : Course) : Bool :=
  decide (c.status = q.status) &&
  (match optNE q.category with | some v => decide (c.category = v) | none => true) &&
  (match optNE q.instructor with | some v => containsCI c.instructor v | none => true) &&
  (match optNE q.level with | some v => decide (c.level = v) | none => true) &&
  (match optNE q.search with
   | some v => containsCI c.title v || containsCI c.description v ||
               containsCI c.instructor v || c.tags.any (fun t => containsCI t v)
   | none => true)

/-- Sort key for the caller-chosen field (numeric / timestamp fields; other
fields sort as equal). -/
def sortKey (c : Course) (f : String) : Int :=
  if f = "created_at" then (c.created_at : Int)
  else if f = "updated_at" then (c.updated_at : Int)
  else if f = "rating" then c.rating
  else if f = "price" then c.price
  else if f = "duration" then c.duration
  else if f = "enrollments" then c.enrollments
  else 0

def listLe (f ord : String) (a b : Course) : Bool :=
  if ord = "desc" then decide (sortKey b f ≤ sortKey a f)
  else decide (sortKey a f ≤ sortKey b f)

/-- The source-of-truth computation of the list route's cache-miss branch:
filter, sort, skip/limit, count. -/
def computeListResult (store : List Course) (q : ListQuery) : ListResult :=
  let filtered := store.filter (courseMatchesList q)
  let sorted := sortByB (listLe q.sort q.order) filtered
  { courses := (sorted.drop ((q.page - 1) * q.limit)).take q.limit,
    pagination := mkPagination q.page q.limit filtered.length }

def listHandler (s : ServiceState) (q : ListQuery) (now : Nat) :
    ReadResp × ServiceState :=
  let key := listKey q
  match rget s.redis now key with
  | some v => ({ status := 200, success := true, data := some v, cached := some true }, s)
  | none =>
      let result := computeListResult s.store q
      let redis' := rset s.redis now key (.listV result) 300
      ({ status := 200, success := true, data := some (.listV result), cached := none },
       { s with redis := redis' })

/-! ### `GET /api/courses/search` -/

def searchKey (q : String) (cat inst : Option String) (page size : Nat) : String :=
  getCacheKey "search" [q, falsyOr cat "all", falsyOr inst "all", toString page, toString size]

/-- The cache-miss computation: query the index (with the *trimmed* query;
the cache key keeps the raw one) and wrap with pagination and a query echo. -/
def computeSearchResult (es : ESState) (q : String) (cat inst : Option String)
    (page size : Nat) : SearchResult :=
  let sr := searchCoursesES es (sTrim q) cat inst page size
  { courses := sr.hits, pagination := mkPagination page size sr.total, query := q }

def searchHandler (s : ServiceState) (qOpt : Option String) (cat inst : Option String)
    (page size : Nat) (now : Nat) : ReadResp × ServiceState :=
  let q := qOpt.getD ""
  if falsyStr qOpt ∨ sTrim q = "" then
    ({ status := 400, success := false, data := none, cached := none }, s)
  else
    let key := searchKey q cat inst page size
    match rget s.redis now key with
    | some v => ({ status := 200, success := true, data := some v, cached := some true }, s)
    | none =>
        let result := computeSearchResult s.es q cat inst page size
        let redis' := rset s.redis now key (.searchV result) 120
        ({ status := 200, success := true, data := some (.searchV result), cached := none },
         { s with redis := redis' })

/-! ### `GET /api/courses/:id` -/

def isHexDigitCh (c : Char) : Bool :=
  c.isDigit || ('a' ≤ c && c ≤ 'f') || ('A' ≤ c && c ≤ 'F')

/-- bson `ObjectId` casting: accepts a 24-character hex string, or any
12-character string (taken as 12 raw bytes). -/
def validOid (s : String) : Bool :=
  (s.data.length = 24 && s.data.all isHexDigitCh) || s.data.length = 12

/-- A mongoose `CastError`: the query promise rejects before reaching the
store. -/
inductive CastErr : Type where
  | castError : CastErr
deriving DecidableEq, Repr

deriving instance DecidableEq for Except

/-- `findOne({$or: [{_id: id}, {course_id: id.toUpperCase()}]})`. Mongoose
casts every `$or` branch against the schema, so a non-castable identifier
makes the whole query reject with a `CastError` (the route's catch answers
500) — the `course_id` branch is only reachable for castable identifiers.
A castable identifier matches on `_id` or on the upper-cased `course_id`. -/
def findCourse (store : List Course) (id : String) : Except CastErr (Option Course) :=
  if validOid id then
    .ok (store.find? (fun c => decide (c.mongoId = id) || decide (c.course_id = sToUpper id)))
  else .error .castError

def singleKey (id : String) : String := getCacheKey "single" [id]

def singleHandler (s : ServiceState) (id : String) (now : Nat) :
    ReadResp × ServiceState :=
  let key := singleKey id
  match rget s.redis now key with
  | some v => ({ status := 200, success := true, data := some v, cached := some true }, s)
  | none =>
      match findCourse s.store id with
      | .error _ => ({ status := 500, success := false, data := none, cached := none }, s)
      | .ok none => ({ status := 404, success := false, data := none, cached := none }, s)
      | .ok (some c) =>
          let redis' := rset s.redis now key (.courseV c) 600
          ({ status := 200, success := true, data := some (.courseV c), cached := none },
           { s with redis := redis' })

/-! ### `GET /api/courses/stats/overview` -/

def sumBy (f : Course → Int) (l : List Course) : Int :=
  l.foldl (fun a c => a + f c) 0

/-- The two aggregation pipelines; when the collection is empty the first
pipeline returns no group and the handler substitutes the zero object. -/
def computeStats (store : List Course) : StatsResult :=
  let overview : StatsOverview :=
    if store = [] then
      { totalCourses := 0, totalEnrollments := 0, averageRating100 := 0,
        averageDuration10 := 0, averagePrice100 := 0 }
    else
      { totalCourses := store.length,
        totalEnrollments := sumBy Course.enrollments store,
        averageRating100 := sumBy Course.rating store * 100 / (store.length : Int),
        averageDuration10 := sumBy Course.duration store * 10 / (store.length : Int),
        averagePrice100 := sumBy Course.price store * 100 / (store.length : Int) }
  let cats := dedupKeepFirst (store.map Course.category)
  let catStats := cats.map (fun cat =>
    let cs := store.filter (fun c => decide (c.category = cat))
    { category := cat, courseCount := cs.length,
      totalEnrollments := sumBy Course.enrollments cs,
      averageRating100 :=
        if cs.length = 0 then 0 else sumBy Course.rating cs * 100 / (cs.length : Int) :
      CatStat })
  { overview := overview,
    categories := sortByB (fun a b => decide (b.courseCount ≤ a.courseCount)) catStats }

def statsKey : String := getCacheKey "stats" ["overview"]

def statsHandler (s : ServiceState) (now : Nat) : ReadResp × ServiceState :=
  match rget s.redis now statsKey with
  | some v => ({ status := 200, success := true, data := some v, cached := some true }, s)
  | none =>
      let result := computeStats s.store
      let redis' := rset s.redis now statsKey (.statsV result) 900
      ({ status := 200, success := true, data := some (.statsV result), cached := none },
       { s with redis := redis' })

/-! ### `POST /api/courses/upload` (bulk CSV ingest) -/

/-- A parsed CSV data row, keyed by header; absent column ⇒ `none`. -/
structure Row where
  course_id : Option String := none
  title : Option String := none
  description : Option String := none
  category : Option String := none
  instructor : Option String := none
  duration : Option String := none
  level : Option String := none
  price : Option String := none
  rating : Option String := none
  tags : Option String := none
  prerequisites : Option String := none
  learning_outcomes : Option String := none
  thumbnail_url : Option String := none
deriving DecidableEq, Repr

def requiredFields : List String :=
  ["title", "description", "category", "instructor", "duration"]

def rowField (r : Row) : String → Option String
  | "title" => r.title
  | "description" => r.description
  | "category" => r.category
  | "instructor" => r.instructor
  | "duration" => r.duration
  | _ => none

/-- `requiredFields.filter(f => !row[f] || row[f].trim() === '')`. -/
def missingFields (r : Row) : List String :=
  requiredFields.filter (fun f =>
    match rowField r f with
    | none => true
    | some v => decide (sTrim v = ""))

def rowInvalid (r : Row) : Bool := decide (missingFields r ≠ [])

/-- `row.x ? row.x.split(',').map(...) : []`. -/
def splitList (o : Option String) (norm : String → String) : List String :=
  match o with
  | none => []
  | some v => if v = "" then [] else (sSplitOnChar ',' v).map norm

/-- The `courseData` object the upload loop builds from a validated row,
including the handler's own category/level coercions. -/
def normalizeRow (r : Row) : CourseInput :=
  let cat := sTrim (r.category.getD "")
  let lvl := match r.level with
    | none => "Beginner"
    | some l => if sTrim l = "" then "Beginner" else sTrim l
  { course_id := r.course_id.map (fun v => sTrim (sToUpper v)),
    title := r.title.map sTrim,
    description := r.description.map sTrim,
    category := some (if cat ∈ validCategories then cat else "Other"),
    instructor := r.instructor.map sTrim,
    duration := some (parseNumOr0 r.duration),
    level := some (if lvl ∈ validLevels then lvl else "Beginner"),
    price := some (parseNumOr0 r.price),
    rating := some (min (parseNumOr0 r.rating) 5),
    tags := splitList r.tags (fun t => sToLower (sTrim t)),
    prerequisites := splitList r.prerequisites sTrim,
    learning_outcomes := splitList r.learning_outcomes sTrim,
    thumbnail_url := some (match r.thumbnail_url with
      | none => defaultThumb
      | some t => if sTrim t = "" then defaultThumb else sTrim t),
    status := none,
    created_by := none }

/-- The validation loop: collects `Row n: Missing required fields: ...`
messages and the surviving `coursesToSave`, preserving row order. -/
def validateRows (n : Nat) : List Row → List String × List CourseInput
  | [] => ([], [])
  | r :: rs =>
      let rest := validateRows (n + 1) rs
      if missingFields r = [] then (rest.1, normalizeRow r :: rest.2)
      else (("Row " ++ toString n ++ ": Missing required fields: " ++
             sIntercalate ", " (missingFields r)) :: rest.1, rest.2)

def dupMsg (cd : CourseInput) : String :=
  "Course with ID " ++ cd.course_id.getD "undefined" ++ " already exists"

def valMsg (cd : CourseInput) : String :=
  "Error saving course \x22" ++ cd.title.getD "undefined" ++ "\x22: validation failed"

structure SaveOut where
  store : List Course
  es : ESState
  nextId : Nat
  saved : List Course
  errs : List String
deriving DecidableEq, Repr

/-- The save loop: each row is an independent insert; a duplicate id
(`E11000`) or store validation failure is caught per row and recorded,
and does not stop sibling rows. Each saved record is indexed when the
search adapter is healthy. -/
def saveLoop (now : Nat) (store : List Course) (es : ESState) (nid : Nat) :
    List CourseInput → SaveOut
  | [] => ⟨store, es, nid, [], []⟩
  | cd :: rest =>
      match mongooseSave store cd now nid with
      | .error .duplicate =>
          let r := saveLoop now store es nid rest
          { r with errs := dupMsg cd :: r.errs }
      | .error (.validation _) =>
          let r := saveLoop now store es nid rest
          { r with errs := valMsg cd :: r.errs }
      | .ok c =>
          let es' := if esHealthy es then indexCourse es c else es
          let r := saveLoop now (store ++ [c]) es' (nid + 1) rest
          { r with saved := c :: r.saved }

/-- The upload handler after a successful CSV parse. Note the source only
*computes* `getCacheKey('list', '*')` after the batch; it performs no cache
deletion, so `redis` is untouched on every path. -/
def uploadHandler (s : ServiceState) (rows : List Row) (now : Nat) :
    UploadResp × ServiceState :=
  if rows = [] then
    ({ status := 400, success := false, message := "CSV file is empty or invalid" }, s)
  else
    let vr := validateRows 1 rows
    if vr.2 = [] then
      ({ status := 400, success := false, message := "No valid courses found in CSV",
         errors := vr.1 }, s)
    else
      let r := saveLoop now s.store s.es s.nextId vr.2
      ({ status := 200, success := true, message := "CSV upload processed successfully",
         total_rows := rows.length, valid_courses := vr.2.length,
         saved_count := r.saved.length, courses := r.saved,
         errors := vr.1 ++ r.errs },
       { s with store := r.store, es := r.es, nextId := r.nextId })

/-- The route `POST /api/courses/upload` as registered: multer, then the
handler — no `authenticateToken` middleware, so `auth` is never consulted.
`file = none` models a request without a CSV file. -/
def uploadRoute (auth : Option String) (file : Option (List Row))
    (s : ServiceState) (now : Nat) : UploadResp × ServiceState :=
  match file with
  | none => ({ status := 400, success := false, message := "No CSV file uploaded" }, s)
  | some rows =>
      let _ := auth
      uploadHandler s rows now

/-! ### `POST /api/courses` (single create) -/

/-- The route as registered: `authenticateToken`, then save, index, and
`RedisClient.del(getCacheKey('list', '*'))` — a `DEL` of the literal key
`courses:list:*`. -/
def createHandler (auth : Option String) (body : CourseInput)
    (s : ServiceState) (now : Nat) : CreateResp × ServiceState :=
  if falsyStr (tokenOf auth) then
    ({ status := 401, success := false }, s)
  else
    let courseData := { body with created_by := some "demo-user" }
    match mongooseSave s.store courseData now s.nextId with
    | .error (.validation fs) =>
        ({ status := 400, success := false, errorFields := fs }, s)
    | .error .duplicate =>
        ({ status := 409, success := false }, s)
    | .ok c =>
        let es' := if esHealthy s.es then indexCourse s.es c else s.es
        let redis' := rdel s.redis (getCacheKey "list" ["*"])
        ({ status := 201, success := true, course := some c },
         { store := s.store ++ [c], redis := redis', es := es', nextId := s.nextId + 1 })

/-! ### `syncCoursesToElasticsearch` (index resync sweep) -/

/-- The sweep: skip when the adapter is unhealthy, else re-upsert every
`published` record (first 1000) into the index. -/
def syncCoursesToElasticsearch (store : List Course) (es : ESState) : ESState :=
  if esHealthy es then
    let courses := (store.filter (fun c => decide (c.status = "published"))).take 1000
    courses.foldl indexCourse es
  else es

/-! ### Adapter lemmas -/

theorem rget_disconnected (r : RedisState) (now : Nat) (k : String)
    (h : r.isConnected = false) : rget r now k = none := by
  simp [rget, h]

theorem rset_disconnected (r : RedisState) (now : Nat) (k : String) (v : CacheVal)
    (ttl : Nat) (h : r.isConnected = false) : rset r now k v ttl = r := by
  simp [rset, h]

theorem rget_rset_hit (r : RedisState) (now : Nat) (k : String) (v : CacheVal)
    (ttl t : Nat) (hc : r.isConnected = true) (ht : t < now + ttl) :
    rget (rset r now k v ttl) t k = some v := by
  simp [rget, rset, hc, alistLookup_ins_self, ht]

theorem indexCourse_connected (es : ESState) (c : Course) :
    (indexCourse es c).isConnected = es.isConnected := by
  unfold indexCourse; split <;> rfl

/-- The upload loop's `if (ElasticsearchClient.isHealthy())` guard is
redundant with the adapter's own connection check. -/
theorem indexStep (es : ESState) (c : Course) :
    (if esHealthy es then indexCourse es c else es) = indexCourse es c := by
  unfold esHealthy indexCourse
  by_cases h : es.isConnected <;> simp [h]

/-! ### Save-pipeline lemmas -/

theorem preSaveHook_status (cd : CourseInput) (now : Nat) :
    (preSaveHook cd now).status = cd.status := by
  unfold preSaveHook; split <;> rfl

theorem mongooseSave_ok_status (store : List Course) (cd : CourseInput) (now nid : Nat)
    (c : Course) (h : mongooseSave store cd now nid = .ok c) (hs : cd.status = none) :
    c.status = "published" := by
  simp only [mongooseSave] at h
  split at h
  · exact absurd h (by simp)
  · split at h
    · exact absurd h (by simp)
    · injection h with h
      subst h
      simp [mkCourse, preSaveHook_status, applyDefaults, applySetters, hs]

theorem validateRows_lengths (rows : List Row) : ∀ n : Nat,
    (validateRows n rows).1.length = rows.countP rowInvalid ∧
    (validateRows n rows).2.length + rows.countP rowInvalid = rows.length := by
  induction rows with
  | nil => intro n; simp [validateRows]
  | cons r rs ih =>
      intro n
      have ihn := ih (n + 1)
      by_cases h : missingFields r = []
      · have hinv : rowInvalid r = false := by simp [rowInvalid, h]
        refine ⟨?_, ?_⟩
        · simp [validateRows, h, List.countP_cons, hinv, ihn.1]
        · have h2 := ihn.2
          simp [validateRows, h, List.countP_cons, hinv]
          omega
      · have hinv : rowInvalid r = true := by simp [rowInvalid, h]
        refine ⟨?_, ?_⟩
        · simp [validateRows, h, List.countP_cons, hinv, ihn.1]
        · have h2 := ihn.2
          simp [validateRows, h, List.countP_cons, hinv]
          omega

theorem validateRows_all_invalid (rows : List Row) (n : Nat)
    (h : ∀ r ∈ rows, missingFields r ≠ []) :
    (validateRows n rows).1.length = rows.length ∧ (validateRows n rows).2 = [] := by
  have hcnt : rows.countP rowInvalid = rows.length := by
    rw [List.countP_eq_length]
    intro r hr
    simp [rowInvalid, h r hr]
  have hl := validateRows_lengths rows n
  refine ⟨by rw [hl.1, hcnt], ?_⟩
  have : (validateRows n rows).2.length = 0 := by omega
  exact List.length_eq_zero.mp this

theorem saveLoop_spec (now : Nat) : ∀ (l : List CourseInput) (store : List Course)
    (es : ESState) (nid : Nat),
    (saveLoop now store es nid l).store = store ++ (saveLoop now store es nid l).saved ∧
    (saveLoop now store es nid l).saved.length + (saveLoop now store es nid l).errs.length
      = l.length ∧
    (saveLoop now store es nid l).es
      = (saveLoop now store es nid l).saved.foldl indexCourse es := by
  intro l
  induction l with
  | nil => intro store es nid; simp [saveLoop]
  | cons cd rest ih =>
      intro store es nid
      cases hm : mongooseSave store cd now nid with
      | error e =>
          cases e with
          | duplicate =>
              have := ih store es nid
              simp [saveLoop, hm]
              exact ⟨this.1, by omega, this.2.2⟩
          | validation fs =>
              have := ih store es nid
              simp [saveLoop, hm]
              exact ⟨this.1, by omega, this.2.2⟩
      | ok c =>
          have := ih (store ++ [c]) (indexCourse es c) (nid + 1)
          simp [saveLoop, hm, indexStep]
          refine ⟨?_, by omega, this.2.2⟩
          rw [this.1, List.append_assoc]
          rfl

theorem saveLoop_status (now : Nat) : ∀ (l : List CourseInput) (store : List Course)
    (es : ESState) (nid : Nat), (∀ cd ∈ l, cd.status = none) →
    ∀ c ∈ (saveLoop now store es nid l).saved, c.status = "published" := by
  intro l
  induction l with
  | nil => intro store es nid _ c hc; simp [saveLoop] at hc
  | cons cd rest ih =>
      intro store es nid hall c hc
      cases hm : mongooseSave store cd now nid with
      | error e =>
          cases e with
          | duplicate =>
              simp [saveLoop, hm] at hc
              exact ih store es nid (fun x hx => hall x (by simp [hx])) c hc
          | validation fs =>
              simp [saveLoop, hm] at hc
              exact ih store es nid (fun x hx => hall x (by simp [hx])) c hc
      | ok c0 =>
          simp [saveLoop, hm] at hc
          rcases hc with hc | hc
          · subst hc
            exact mongooseSave_ok_status store cd now nid c hm (hall cd (by simp))
          · exact ih (store ++ [c0]) (if esHealthy es then indexCourse es c0 else es)
              (nid + 1) (fun x hx => hall x (by simp [hx])) c (by
                rw [indexStep] at hc ⊢
                exact hc)

/-! ### Resync-sweep lemmas -/

/-- The docs-level upsert performed per course. -/
def insDoc (l : List (String × ESDoc)) (c : Course) : List (String × ESDoc) :=
  alistIns c.mongoId (docOf c) l

theorem foldl_indexCourse_connected (cs : List Course) : ∀ (d : List (String × ESDoc)),
    cs.foldl indexCourse ⟨true, d⟩ = ⟨true, cs.foldl insDoc d⟩ := by
  induction cs with
  | nil => intro d; simp
  | cons c rest ih =>
      intro d
      simp only [List.foldl_cons]
      rw [show indexCourse ⟨true, d⟩ c = ⟨true, insDoc d c⟩ from rfl, ih]

theorem foldl_insDoc_lookup_not_mem (cs : List Course) (k : String)
    (h : k ∉ cs.map Course.mongoId) : ∀ d : List (String × ESDoc),
    alistLookup k (cs.foldl insDoc d) = alistLookup k d := by
  induction cs with
  | nil => intro d; rfl
  | cons c rest ih =>
      intro d
      simp only [List.map_cons, List.mem_cons, not_or] at h
      simp only [List.foldl_cons]
      rw [ih h.2, insDoc, alistLookup_ins_other _ _ _ _ h.1]

theorem foldl_insDoc_lookup_self (cs : List Course)
    (h : (cs.map Course.mongoId).Nodup) : ∀ (d : List (String × ESDoc)) (c : Course),
    c ∈ cs → alistLookup c.mongoId (cs.foldl insDoc d) = some (docOf c) := by
  induction cs with
  | nil => intro d c hc; simp at hc
  | cons c0 rest ih =>
      intro d c hc
      simp only [List.map_cons, List.nodup_cons] at h
      rcases List.mem_cons.mp hc with hc | hc
      · subst hc
        simp only [List.foldl_cons]
        rw [foldl_insDoc_lookup_not_mem rest c.mongoId h.1, insDoc,
          alistLookup_ins_self]
      · exact ih h.2 (insDoc d c0) c hc

theorem foldl_insDoc_replay (cs : List Course) : ∀ d : List (String × ESDoc),
    (∀ c ∈ cs, alistLookup c.mongoId d = some (docOf c)) → cs.foldl insDoc d = d := by
  induction cs with
  | nil => intro d _; rfl
  | cons c0 rest ih =>
      intro d h
      have h0 : insDoc d c0 = d := alistIns_of_lookup _ _ _ (h c0 (by simp))
      simp only [List.foldl_cons, h0]
      exact ih d (fun c hc => h c (by simp [hc]))

/-- Replaying the same batch of upserts over an index that already holds it
changes nothing. -/
theorem foldl_insDoc_idem (cs : List Course) (d : List (String × ESDoc))
    (h : (cs.map Course.mongoId).Nodup) :
    cs.foldl insDoc (cs.foldl insDoc d) = cs.foldl insDoc d :=
  foldl_insDoc_replay cs _ (fun c hc => foldl_insDoc_lookup_self cs h d c hc)

theorem published_take_nodup (store : List Course)
    (h : (store.map Course.mongoId).Nodup) :
    ((((store.filter (fun c => decide (c.status = "published"))).take 1000).map
      Course.mongoId)).Nodup := by
  apply List.Nodup.sublist _ h
  apply List.Sublist.map
  exact ((store.filter (fun c => decide (c.status = "published"))).take_sublist 1000).trans
    (store.filter_sublist)

/-! ### Concrete fixtures -/

/-- A CSV row passing required-field validation. -/
def rowOk : Row :=
  { course_id := some "CS101", title := some "Intro to Lean",
    description := some "Learn theorem proving", category := some "Programming",
    instructor := some "Bob", duration := some "10" }

/-- Valid row whose `course_id` collides with `rowOk`. -/
def rowDup : Row := { rowOk with title := some "Another Course" }

/-- Row with every column absent. -/
def rowBad : Row := {}

/-- A well-formed create body without an explicit `status`. -/
def bodyOk : CourseInput :=
  { course_id := some "X1", title := some "New Title!!",
    description := some "A description ok", category := some "Programming",
    instructor := some "Alice", duration := some 5 }

def bodyOk2 : CourseInput := { bodyOk with course_id := some "CS102" }

/-- A record that sits (stale) in the cache in the counterexample states. -/
def staleCourse : Course :=
  { mongoId := freshOid 99, course_id := "OLD1", title := "Old Title",
    description := "Old description", category := "Business", instructor := "Carol",
    duration := 3, level := "Beginner", price := 0, enrollments := 7, rating := 4,
    tags := [], prerequisites := [], learning_outcomes := [],
    thumbnail_url := defaultThumb, status := "published", created_by := "admin",
    created_at := 0, updated_at := 0 }

def staleList : ListResult := { courses := [staleCourse], pagination := mkPagination 1 10 1 }

/-- The record produced by saving `bodyOk` into an empty state at time 0. -/
def createdX1 : Course :=
  { mongoId := freshOid 0, course_id := "X1", title := "New Title!!",
    description := "A description ok", category := "Programming", instructor := "Alice",
    duration := 5, level := "Beginner", price := 0, enrollments := 0, rating := 0,
    tags := [], prerequisites := [], learning_outcomes := [],
    thumbnail_url := defaultThumb, status := "published", created_by := "demo-user",
    created_at := 0, updated_at := 0 }

/-- The record produced by ingesting `rowOk` into an empty state at time 0. -/
def savedCS101 : Course :=
  { mongoId := freshOid 0, course_id := "CS101", title := "Intro to Lean",
    description := "Learn theorem proving", category := "Programming", instructor := "Bob",
    duration := 10, level := "Beginner", price := 0, enrollments := 0, rating := 0,
    tags := [], prerequisites := [], learning_outcomes := [],
    thumbnail_url := defaultThumb, status := "published", created_by := "admin",
    created_at := 0, updated_at := 0 }

/-- Empty store, connected empty cache, unavailable index. -/
def s0 : ServiceState := ⟨[], ⟨true, []⟩, ⟨false, []⟩, 0⟩

/-- Like `s0` but with an unexpired single-record cache entry under the key
the identifier `X1` hashes to. -/
def sStaleSingle : ServiceState :=
  ⟨[], ⟨true, [(singleKey "X1", (.courseV staleCourse, 1000))]⟩, ⟨false, []⟩, 0⟩

/-- Like `s0` but with an unexpired list cache entry under the default
list-query key. -/
def sStaleList : ServiceState :=
  ⟨[], ⟨true, [(listKey {}, (.listV staleList, 1000))]⟩, ⟨false, []⟩, 0⟩

/-- A populated state whose cache adapter is down. -/
def sRedisDown : ServiceState :=
  ⟨[staleCourse], ⟨false, []⟩, ⟨true, [(staleCourse.mongoId, docOf staleCourse)]⟩, 0⟩

/-! ### C1 — cache invalidation after mutations -/

/-- C1 (claim: after every mutating operation, all affected list/search/stats
cache entries are invalidated, so no read within a TTL window serves content
predating a committed mutation). The code does the opposite: the bulk upload
computes `getCacheKey('list','*')` but deletes nothing (the cache is
bit-for-bit unchanged), and the single create deletes only the literal key
`courses:list:*`, which no read route ever writes — so a list read within the
TTL still serves the pre-mutation payload, `cached = true`, differing from
the store's current contents. -/
theorem c1_no_invalidation_after_mutations :
    (uploadHandler sStaleList [rowOk] 0).2.redis = sStaleList.redis ∧
    (uploadHandler sStaleList [rowOk] 0).2.store = [savedCS101] ∧
    (listHandler (uploadHandler sStaleList [rowOk] 0).2 {} 5).1.cached = some true ∧
    (listHandler (uploadHandler sStaleList [rowOk] 0).2 {} 5).1.data
      = some (.listV staleList) ∧
    staleList ≠ computeListResult (uploadHandler sStaleList [rowOk] 0).2.store {} ∧
    (createHandler (some "Bearer t") bodyOk2 (uploadHandler sStaleList [rowOk] 0).2 6).1.status
      = 201 ∧
    (createHandler (some "Bearer t") bodyOk2 (uploadHandler sStaleList [rowOk] 0).2 6).2.redis
      = sStaleList.redis := by
  decide

/-! ### C2 — authorization boundary -/

/-- C2 counterexample (claim: an upload request with no Authorization token
is rejected). The upload route has no `authenticateToken` middleware: a
tokenless upload is fully processed — status 200, a record is persisted. -/
theorem c2_upload_without_token_processed :
    (uploadRoute none (some [rowOk]) s0 0).1.status = 200 ∧
    (uploadRoute none (some [rowOk]) s0 0).1.success = true ∧
    (uploadRoute none (some [rowOk]) s0 0).2.store = [savedCS101] := by
  decide

theorem uploadHandler_status (s : ServiceState) (rows : List Row) (now : Nat) :
    (uploadHandler s rows now).1.status = 400 ∨ (uploadHandler s rows now).1.status = 200 := by
  simp only [uploadHandler]
  split
  · exact Or.inl rfl
  · split
    · exact Or.inl rfl
    · exact Or.inr rfl

/-- C2 amended: only the single-create route requires a capability token (a
request whose token is absent or blank is rejected with 401 and leaves the
state untouched); the bulk-upload route consults no token at all — its
outcome is identical with any or no Authorization header and is never a 401.
Read routes take no token. -/
theorem c2_auth_boundary_amended (auth : Option String) (body : CourseInput)
    (s : ServiceState) (now : Nat) (file : Option (List Row))
    (h : falsyStr (tokenOf auth) = true) :
    (createHandler auth body s now).1.status = 401 ∧
    (createHandler auth body s now).2 = s ∧
    uploadRoute auth file s now = uploadRoute none file s now ∧
    (uploadRoute auth file s now).1.status ≠ 401 := by
  refine ⟨by simp [createHandler, h], by simp [createHandler, h], rfl, ?_⟩
  cases file with
  | none => simp [uploadRoute]
  | some rows =>
      show (uploadHandler s rows now).1.status ≠ 401
      rcases uploadHandler_status s rows now with h2 | h2 <;> omega

theorem c2_auth_boundary_amended_witness :
    (createHandler none bodyOk s0 0).1.status = 401 ∧
    (createHandler none bodyOk s0 0).2 = s0 ∧
    uploadRoute none (some [rowOk]) s0 0 = uploadRoute none (some [rowOk]) s0 0 ∧
    (uploadRoute none (some [rowOk]) s0 0).1.status ≠ 401 :=
  c2_auth_boundary_amended none bodyOk s0 0 (some [rowOk]) (by decide)

/-! ### C3 — all-rows-invalid upload -/

/-- C3 counterexample (claim: an upload in which every data row fails
required-field validation yields a success-shaped report with
`savedRows = 0`, not a hard error). In the code, `coursesToSave.length === 0`
takes the same hard-error path shape as the empty file: HTTP 400 with
`success: false` ("No valid courses found in CSV"). -/
theorem c3_all_invalid_is_hard_error :
    (uploadHandler s0 [rowBad] 0).1.status = 400 ∧
    (uploadHandler s0 [rowBad] 0).1.success = false ∧
    (uploadHandler s0 [rowBad] 0).1.message = "No valid courses found in CSV" := by
  decide

/-- C3 amended: an upload with zero parsable rows *or* in which every row
fails required-field validation is a hard error (HTTP 400, `success=false`);
the all-invalid error carries one collected row error per row. A
`savedRows = 0` report arises only when some row passes validation and every
save then fails. -/
theorem c3_all_invalid_amended (s : ServiceState) (rows : List Row) (now : Nat)
    (hne : rows ≠ []) (hall : ∀ r ∈ rows, missingFields r ≠ []) :
    (uploadHandler s rows now).1.status = 400 ∧
    (uploadHandler s rows now).1.success = false ∧
    (uploadHandler s rows now).1.errors.length = rows.length ∧
    (uploadHandler s rows now).2 = s := by
  have hv := validateRows_all_invalid rows 1 hall
  have h1 : uploadHandler s rows now =
      ({ status := 400, success := false, message := "No valid courses found in CSV",
         errors := (validateRows 1 rows).1 }, s) := by
    simp [uploadHandler, hne, hv.2]
  rw [h1]
  exact ⟨rfl, rfl, hv.1, rfl⟩

theorem c3_all_invalid_amended_witness :
    (uploadHandler s0 [rowBad] 0).1.status = 400 ∧
    (uploadHandler s0 [rowBad] 0).1.success = false ∧
    (uploadHandler s0 [rowBad] 0).1.errors.length = [rowBad].length ∧
    (uploadHandler s0 [rowBad] 0).2 = s0 :=
  c3_all_invalid_amended s0 [rowBad] 0 (by decide) (by decide)

/-! ### C4 — partial-failure report arithmetic -/

/-- C4 counterexample at `k = N` (the claim quantifies `0 ≤ k ≤ N`): a
one-row batch whose row fails required-field validation produces no report
at all — the operation is a 400 hard error — so no report satisfies
`savedRows = N - k - ...` there. -/
theorem c4_no_report_when_all_rows_invalid :
    (uploadHandler s0 [{ rowOk with title := none }] 0).1.status = 400 ∧
    (uploadHandler s0 [{ rowOk with title := none }] 0).1.success = false ∧
    (uploadHandler s0 [{ rowOk with title := none }] 0).2 = s0 := by
  decide

/-- C4 amended to `0 ≤ k < N`: for a parsable batch of `N` rows of which
`k < N` fail required-field validation, the handler produces a report
satisfying `savedRows = N - k - f` where `f` counts per-row duplicate-id
conflicts and store-level validation failures, the error list has length
`k + f ≥ k`, and the store ends as the initial store plus exactly the saved
records — no sibling row is rolled back. (At `k = N` there is no report —
see the counterexample and C3.) -/
theorem c4_partial_failure_report (s : ServiceState) (rows : List Row) (now : Nat)
    (hk : rows.countP rowInvalid < rows.length) :
    (uploadHandler s rows now).1.status = 200 ∧
    (uploadHandler s rows now).1.success = true ∧
    (uploadHandler s rows now).1.total_rows = rows.length ∧
    (uploadHandler s rows now).1.valid_courses + rows.countP rowInvalid = rows.length ∧
    (∃ f, (uploadHandler s rows now).1.errors.length = rows.countP rowInvalid + f ∧
      (uploadHandler s rows now).1.saved_count + f + rows.countP rowInvalid
        = rows.length) ∧
    rows.countP rowInvalid ≤ (uploadHandler s rows now).1.errors.length ∧
    (uploadHandler s rows now).2.store = s.store ++ (uploadHandler s rows now).1.courses ∧
    (uploadHandler s rows now).1.courses.length = (uploadHandler s rows now).1.saved_count := by
  have hvl := validateRows_lengths rows 1
  have h : (validateRows 1 rows).2 ≠ [] := by
    intro he
    have h2 := hvl.2
    have h3 : (validateRows 1 rows).2.length = 0 := by rw [he]; rfl
    omega
  have hrows : rows ≠ [] := by
    intro he
    rw [he] at h
    simp [validateRows] at h
  have hsl := saveLoop_spec now (validateRows 1 rows).2 s.store s.es s.nextId
  have hup : uploadHandler s rows now =
      ({ status := 200, success := true, message := "CSV upload processed successfully",
         total_rows := rows.length, valid_courses := (validateRows 1 rows).2.length,
         saved_count := (saveLoop now s.store s.es s.nextId (validateRows 1 rows).2).saved.length,
         courses := (saveLoop now s.store s.es s.nextId (validateRows 1 rows).2).saved,
         errors := (validateRows 1 rows).1
           ++ (saveLoop now s.store s.es s.nextId (validateRows 1 rows).2).errs },
       { s with
         store := (saveLoop now s.store s.es s.nextId (validateRows 1 rows).2).store,
         es := (saveLoop now s.store s.es s.nextId (validateRows 1 rows).2).es,
         nextId := (saveLoop now s.store s.es s.nextId (validateRows 1 rows).2).nextId }) := by
    simp [uploadHandler, hrows, h]
  have h1 := hvl.1
  have h2 := hvl.2
  have h3 := hsl.2.1
  rw [hup]
  simp only [List.length_append]
  refine ⟨trivial, trivial, trivial, by omega,
    ⟨(saveLoop now s.store s.es s.nextId (validateRows 1 rows).2).errs.length,
      by omega, by omega⟩, by omega, hsl.1, trivial⟩

theorem c4_partial_failure_report_witness :
    (uploadHandler s0 [rowOk, rowDup, rowBad] 0).1.status = 200 ∧
    (uploadHandler s0 [rowOk, rowDup, rowBad] 0).1.success = true ∧
    (uploadHandler s0 [rowOk, rowDup, rowBad] 0).1.total_rows = [rowOk, rowDup, rowBad].length ∧
    (uploadHandler s0 [rowOk, rowDup, rowBad] 0).1.valid_courses
      + [rowOk, rowDup, rowBad].countP rowInvalid = [rowOk, rowDup, rowBad].length ∧
    (∃ f, (uploadHandler s0 [rowOk, rowDup, rowBad] 0).1.errors.length
        = [rowOk, rowDup, rowBad].countP rowInvalid + f ∧
      (uploadHandler s0 [rowOk, rowDup, rowBad] 0).1.saved_count + f
        + [rowOk, rowDup, rowBad].countP rowInvalid = [rowOk, rowDup, rowBad].length) ∧
    [rowOk, rowDup, rowBad].countP rowInvalid
      ≤ (uploadHandler s0 [rowOk, rowDup, rowBad] 0).1.errors.length ∧
    (uploadHandler s0 [rowOk, rowDup, rowBad] 0).2.store
      = s0.store ++ (uploadHandler s0 [rowOk, rowDup, rowBad] 0).1.courses ∧
    (uploadHandler s0 [rowOk, rowDup, rowBad] 0).1.courses.length
      = (uploadHandler s0 [rowOk, rowDup, rowBad] 0).1.saved_count :=
  c4_partial_failure_report s0 [rowOk, rowDup, rowBad] 0 (by decide)

/-! ### C5 — the `cached` response flag -/

/-- C5 counterexample (claim: every read response carries a boolean `cached`,
`false` on a miss). A cache-miss list read succeeds but its response body has
no `cached` key at all (modelled `none`), in particular not `false`. -/
theorem c5_miss_has_no_cached_field :
    (listHandler s0 {} 0).1.status = 200 ∧
    (listHandler s0 {} 0).1.success = true ∧
    (listHandler s0 {} 0).1.cached = none ∧
    ¬ (listHandler s0 {} 0).1.cached = some false := by
  decide

/-- C5 amended: each of the four read operations tags a cache-hit response
with `cached = true`; on every other outcome (miss, parameter rejection,
not-found) the response carries no `cached` field at all (`none`), rather
than `cached = false`. -/
theorem c5_cached_flag_amended (s : ServiceState) (q : ListQuery)
    (qOpt cat inst : Option String) (page size : Nat) (id : String) (now : Nat) :
    (listHandler s q now).1.cached
      = (if (rget s.redis now (listKey q)).isSome then some true else none) ∧
    (searchHandler s qOpt cat inst page size now).1.cached
      = (if falsyStr qOpt ∨ sTrim (qOpt.getD "") = "" then none
         else if (rget s.redis now (searchKey (qOpt.getD "") cat inst page size)).isSome
         then some true else none) ∧
    (singleHandler s id now).1.cached
      = (if (rget s.redis now (singleKey id)).isSome then some true else none) ∧
    (statsHandler s now).1.cached
      = (if (rget s.redis now statsKey).isSome then some true else none) := by
  refine ⟨?_, ?_, ?_, ?_⟩
  · cases hg : rget s.redis now (listKey q) <;> simp [listHandler, hg]
  · by_cases hq : falsyStr qOpt ∨ sTrim (qOpt.getD "") = ""
    · simp [searchHandler, hq]
    · cases hg : rget s.redis now (searchKey (qOpt.getD "") cat inst page size) <;>
        simp [searchHandler, hq, hg]
  · cases hg : rget s.redis now (singleKey id)
    · cases hf : findCourse s.store id with
      | error e => simp [singleHandler, hg, hf]
      | ok oc => cases oc <;> simp [singleHandler, hg, hf]
    · simp [singleHandler, hg]
  · cases hg : rget s.redis now statsKey <;> simp [statsHandler, hg]

/-! ### C6 — create-then-fetch coherence -/

/-- C6 counterexample (claim: `GetRecord` right after `CreateRecord` returns
the just-created fields regardless of prior cache state for that key). With a
pre-existing unexpired cache entry under `courses:single:X1`, creating record
`X1` (which only deletes the literal `courses:list:*` key) and then fetching
`X1` within the entry's TTL returns the stale cached record, not the created
one. -/
theorem c6_stale_single_after_create :
    (createHandler (some "Bearer tok") bodyOk sStaleSingle 0).1.status = 201 ∧
    (createHandler (some "Bearer tok") bodyOk sStaleSingle 0).1.course = some createdX1 ∧
    (singleHandler (createHandler (some "Bearer tok") bodyOk sStaleSingle 0).2 "X1" 5).1.cached
      = some true ∧
    (singleHandler (createHandler (some "Bearer tok") bodyOk sStaleSingle 0).2 "X1" 5).1.data
      = some (.courseV staleCourse) ∧
    ¬ (singleHandler (createHandler (some "Bearer tok") bodyOk sStaleSingle 0).2 "X1" 5).1.data
      = some (.courseV createdX1) := by
  decide

/-- C6 amended: after a successful `CreateRecord`, a `GetRecord` returns
exactly the created fields *provided* the cache holds no unexpired entry
under the identifier's key (the create path never invalidates single-record
keys, so a pre-existing entry is served instead — see the counterexample)
*and* the identifier casts to an ObjectId and resolves in the store to the
created record (in particular, the record's generated `_id`); fetching with
a non-castable identifier — such as a typical `course_id` like `X1` — is a
500 `CastError` response on any cache miss, never the created fields. -/
theorem c6_create_then_get_amended (s : ServiceState) (auth : Option String)
    (body : CourseInput) (now t : Nat) (id id2 : String) (c : Course)
    (hcrt : (createHandler auth body s now).1.course = some c)
    (hmiss : rget (createHandler auth body s now).2.redis t (singleKey id) = none)
    (hfind : findCourse (createHandler auth body s now).2.store id = .ok (some c))
    (hbad : validOid id2 = false)
    (hmiss2 : rget (createHandler auth body s now).2.redis t (singleKey id2) = none) :
    (createHandler auth body s now).1.course = some c ∧
    (singleHandler (createHandler auth body s now).2 id t).1
      = { status := 200, success := true, data := some (.courseV c), cached := none } ∧
    (singleHandler (createHandler auth body s now).2 id2 t).1
      = { status := 500, success := false, data := none, cached := none } := by
  refine ⟨hcrt, by simp [singleHandler, hmiss, hfind], ?_⟩
  simp [singleHandler, hmiss2, findCourse, hbad]

theorem c6_create_then_get_amended_witness :
    (createHandler (some "Bearer tok") bodyOk s0 0).1.course = some createdX1 ∧
    (singleHandler (createHandler (some "Bearer tok") bodyOk s0 0).2 (freshOid 0) 5).1
      = { status := 200, success := true, data := some (.courseV createdX1), cached := none } ∧
    (singleHandler (createHandler (some "Bearer tok") bodyOk s0 0).2 "X1" 5).1
      = { status := 500, success := false, data := none, cached := none } :=
  c6_create_then_get_amended s0 (some "Bearer tok") bodyOk 0 5 (freshOid 0) "X1" createdX1
    (by decide) (by decide) (by decide) (by decide) (by decide)

/-! ### C7 — graceful degradation without the cache -/

/-- C7 counterexample (claim: with the cache adapter unavailable no read
operation fails and all four reads still return the correct result from the
store or index). With the cache down, fetching the stored record by its
`course_id` identifier `OLD1` fails with a 500: mongoose rejects the
`$or`'s `_id` cast for any non-ObjectId identifier before the store is
consulted, so the single fetch returns no record at all — a failure a warm
cache would have masked. -/
theorem c7_single_read_fails_without_cache :
    sRedisDown.redis.isConnected = false ∧
    (∃ c ∈ sRedisDown.store, c.course_id = sToUpper "OLD1") ∧
    (singleHandler sRedisDown "OLD1" 0).1.status = 500 ∧
    (singleHandler sRedisDown "OLD1" 0).1.success = false ∧
    (singleHandler sRedisDown "OLD1" 0).1.data = none := by
  decide

/-- C7 amended: cache-adapter unavailability itself never fails a read — a
skipped get is a miss, a skipped set is ignored (state unchanged), `cached`
is never `true` (the field is absent), and list, keyword search and
statistics return exactly the result computed from their source of truth.
The single fetch does so too for identifiers that cast to an ObjectId
(record or 404), but rejects with 500 for non-castable identifiers — a
failure independent of the cache (it equally occurs on any cache miss with
the cache up, see the counterexample). -/
theorem c7_reads_degrade_without_cache (s : ServiceState) (q : ListQuery)
    (qOpt cat inst : Option String) (page size : Nat) (id : String) (now : Nat)
    (h : s.redis.isConnected = false)
    (hq : ¬ (falsyStr qOpt = true ∨ sTrim (qOpt.getD "") = "")) :
    listHandler s q now
      = ({ status := 200, success := true,
           data := some (.listV (computeListResult s.store q)), cached := none }, s) ∧
    searchHandler s qOpt cat inst page size now
      = ({ status := 200, success := true,
           data := some (.searchV (computeSearchResult s.es (qOpt.getD "") cat inst page size)),
           cached := none }, s) ∧
    singleHandler s id now
      = (match findCourse s.store id with
         | .ok (some c) =>
             ({ status := 200, success := true, data := some (.courseV c), cached := none }, s)
         | .ok none => ({ status := 404, success := false, data := none, cached := none }, s)
         | .error _ =>
             ({ status := 500, success := false, data := none, cached := none }, s)) ∧
    statsHandler s now
      = ({ status := 200, success := true,
           data := some (.statsV (computeStats s.store)), cached := none }, s) := by
  refine ⟨?_, ?_, ?_, ?_⟩
  · simp [listHandler, rget, rset, h]
  · simp [searchHandler, hq, rget, rset, h]
  · cases hf : findCourse s.store id with
    | error e => simp [singleHandler, rget, h, hf]
    | ok oc => cases oc <;> simp [singleHandler, rget, rset, h, hf]
  · simp [statsHandler, rget, rset, h]

theorem c7_reads_degrade_without_cache_witness :
    listHandler sRedisDown {} 0
      = ({ status := 200, success := true,
           data := some (.listV (computeListResult sRedisDown.store {})), cached := none },
         sRedisDown) ∧
    searchHandler sRedisDown (some "old") none none 1 10 0
      = ({ status := 200, success := true,
           data := some (.searchV (computeSearchResult sRedisDown.es "old" none none 1 10)),
           cached := none }, sRedisDown) ∧
    singleHandler sRedisDown (freshOid 99) 0
      = (match findCourse sRedisDown.store (freshOid 99) with
         | .ok (some c) =>
             ({ status := 200, success := true, data := some (.courseV c), cached := none },
              sRedisDown)
         | .ok none =>
             ({ status := 404, success := false, data := none, cached := none }, sRedisDown)
         | .error _ =>
             ({ status := 500, success := false, data := none, cached := none }, sRedisDown)) ∧
    statsHandler sRedisDown 0
      = ({ status := 200, success := true,
           data := some (.statsV (computeStats sRedisDown.store)), cached := none },
         sRedisDown) :=
  c7_reads_degrade_without_cache sRedisDown {} (some "old") none none 1 10 (freshOid 99) 0
    rfl (by decide)

/-! ### C8 — idempotent index resync -/

/-- C8: the resync sweep re-reads all published records and re-upserts each
by its identity; assuming the store's `_id` uniqueness invariant, running the
sweep twice with no intervening mutation leaves the index state — and hence
every search result — identical to running it once. -/
theorem c8_resync_idempotent (store : List Course) (es : ESState)
    (h : (store.map Course.mongoId).Nodup) :
    syncCoursesToElasticsearch store (syncCoursesToElasticsearch store es)
      = syncCoursesToElasticsearch store es ∧
    ∀ (q : String) (cat inst : Option String) (page size : Nat),
      searchCoursesES (syncCoursesToElasticsearch store (syncCoursesToElasticsearch store es))
          q cat inst page size
        = searchCoursesES (syncCoursesToElasticsearch store es) q cat inst page size := by
  have hmain : syncCoursesToElasticsearch store (syncCoursesToElasticsearch store es)
      = syncCoursesToElasticsearch store es := by
    obtain ⟨conn, docs⟩ := es
    cases conn with
    | false => simp [syncCoursesToElasticsearch, esHealthy]
    | true =>
        have hp := published_take_nodup store h
        have esync : ∀ d : List (String × ESDoc),
            syncCoursesToElasticsearch store ⟨true, d⟩
              = ⟨true, ((store.filter (fun c => decide (c.status = "published"))).take 1000).foldl
                  insDoc d⟩ := by
          intro d
          simp only [syncCoursesToElasticsearch, esHealthy, if_true]
          exact foldl_indexCourse_connected _ d
        rw [esync docs, esync _, foldl_insDoc_idem _ _ hp]
  exact ⟨hmain, fun qv cat inst page size => by rw [hmain]⟩

def storeW : List Course := [savedCS101, staleCourse]

theorem c8_resync_idempotent_witness :
    syncCoursesToElasticsearch storeW (syncCoursesToElasticsearch storeW ⟨true, []⟩)
      = syncCoursesToElasticsearch storeW ⟨true, []⟩ :=
  (c8_resync_idempotent storeW ⟨true, []⟩ (by decide)).1

/-! ### C9 — ingested records default to `published` and are indexed -/

theorem validateRows_status_none (rows : List Row) : ∀ (n : Nat) (cd : CourseInput),
    cd ∈ (validateRows n rows).2 → cd.status = none := by
  induction rows with
  | nil => intro n cd hcd; simp [validateRows] at hcd
  | cons r rs ih =>
      intro n cd hcd
      by_cases h : missingFields r = []
      · simp [validateRows, h] at hcd
        rcases hcd with hcd | hcd
        · subst hcd; rfl
        · exact ih (n + 1) cd hcd
      · simp [validateRows, h] at hcd
        exact ih (n + 1) cd hcd

/-- C9: a record created through bulk ingest (which never sets `status`) or
through single create without an explicit `status` is persisted with the
schema default `published`, and the final index state is exactly the initial
one with each saved record upserted in order (each saved record is submitted
for indexing immediately, the upsert being a no-op only when the adapter is
down). -/
theorem c9_ingest_defaults_published (s : ServiceState) (rows : List Row) (now : Nat)
    (auth : Option String) (body : CourseInput) (s2 : ServiceState) (now2 : Nat)
    (c2 : Course) :
    (∀ c ∈ (uploadHandler s rows now).1.courses, c.status = "published") ∧
    (uploadHandler s rows now).2.es
      = (uploadHandler s rows now).1.courses.foldl indexCourse s.es ∧
    (body.status = none → (createHandler auth body s2 now2).1.course = some c2 →
      c2.status = "published") := by
  refine ⟨?_, ?_, ?_⟩
  · by_cases h0 : rows = []
    · simp [uploadHandler, h0]
    · by_cases h1 : (validateRows 1 rows).2 = []
      · simp [uploadHandler, h0, h1]
      · simp only [uploadHandler, if_neg h0]
        simp only [if_neg h1]
        intro c hc
        exact saveLoop_status now (validateRows 1 rows).2 s.store s.es s.nextId
          (fun cd hcd => validateRows_status_none rows 1 cd hcd) c hc
  · by_cases h0 : rows = []
    · simp [uploadHandler, h0]
    · by_cases h1 : (validateRows 1 rows).2 = []
      · simp [uploadHandler, h0, h1]
      · simp only [uploadHandler, if_neg h0]
        simp only [if_neg h1]
        exact (saveLoop_spec now (validateRows 1 rows).2 s.store s.es s.nextId).2.2
  · intro hbs hcc
    by_cases ha : falsyStr (tokenOf auth) = true
    · simp [createHandler, ha] at hcc
    · cases hm : mongooseSave s2.store { body with created_by := some "demo-user" } now2 s2.nextId with
      | error e =>
          cases e with
          | validation fs => simp [createHandler, ha, hm] at hcc
          | duplicate => simp [createHandler, ha, hm] at hcc
      | ok c0 =>
          have hc0 : c0 = c2 := by simpa [createHandler, ha, hm] using hcc
          subst hc0
          exact mongooseSave_ok_status s2.store _ now2 s2.nextId c0 hm hbs

theorem c9_ingest_defaults_published_witness :
    savedCS101.status = "published" ∧ createdX1.status = "published" ∧
    (uploadHandler s0 [rowOk] 0).2.es
      = (uploadHandler s0 [rowOk] 0).1.courses.foldl indexCourse s0.es :=
  ⟨(c9_ingest_defaults_published s0 [rowOk] 0 (some "Bearer tok") bodyOk s0 0 createdX1).1
      savedCS101 (by decide),
   (c9_ingest_defaults_published s0 [rowOk] 0 (some "Bearer tok") bodyOk s0 0 createdX1).2.2
      rfl (by decide),
   (c9_ingest_defaults_published s0 [rowOk] 0 (some "Bearer tok") bodyOk s0 0 createdX1).2.1⟩

/-! ### C10 — empty search result cached while the index is down -/

/-- C10: with the search adapter unavailable (and the cache up), a keyword
search misses the cache, returns the successful empty result, and stores it
under the search key with the 120-second TTL; for the rest of that window
the identical query is served the cached empty payload with `cached = true`,
regardless of the store and even if the index has recovered. -/
theorem c10_search_unavailable_cached (s : ServiceState) (qOpt cat inst : Option String)
    (page size t0 : Nat)
    (hes : s.es.isConnected = false)
    (hr : s.redis.isConnected = true)
    (hq : ¬ (falsyStr qOpt = true ∨ sTrim (qOpt.getD "") = ""))
    (hmiss : rget s.redis t0 (searchKey (qOpt.getD "") cat inst page size) = none) :
    (searchHandler s qOpt cat inst page size t0).1
      = { status := 200, success := true,
          data := some (.searchV { courses := [], pagination := mkPagination page size 0,
                                   query := qOpt.getD "" }),
          cached := none } ∧
    ∀ (store2 : List Course) (es2 : ESState) (nid2 t : Nat), t0 ≤ t → t < t0 + 120 →
      (searchHandler ⟨store2, (searchHandler s qOpt cat inst page size t0).2.redis, es2, nid2⟩
          qOpt cat inst page size t).1
        = { status := 200, success := true,
            data := some (.searchV { courses := [], pagination := mkPagination page size 0,
                                     query := qOpt.getD "" }),
            cached := some true } := by
  have hres : computeSearchResult s.es (qOpt.getD "") cat inst page size
      = { courses := [], pagination := mkPagination page size 0, query := qOpt.getD "" } := by
    simp [computeSearchResult, searchCoursesES, hes]
  constructor
  · simp [searchHandler, hq, hmiss, hres]
  · intro store2 es2 nid2 t ht1 ht2
    have hget : rget (rset s.redis t0 (searchKey (qOpt.getD "") cat inst page size)
        (.searchV { courses := [], pagination := mkPagination page size 0,
                    query := qOpt.getD "" }) 120) t
        (searchKey (qOpt.getD "") cat inst page size)
        = some (.searchV { courses := [], pagination := mkPagination page size 0,
                           query := qOpt.getD "" }) :=
      rget_rset_hit _ _ _ _ _ _ hr ht2
    simp [searchHandler, hq, hmiss, hres, hget]

theorem c10_search_unavailable_cached_witness :
    (searchHandler s0 (some "lean") none none 1 10 0).1
      = { status := 200, success := true,
          data := some (.searchV { courses := [], pagination := mkPagination 1 10 0,
                                   query := "lean" }),
          cached := none } ∧
    (searchHandler ⟨[], (searchHandler s0 (some "lean") none none 1 10 0).2.redis, ⟨true, []⟩, 0⟩
        (some "lean") none none 1 10 50).1
      = { status := 200, success := true,
          data := some (.searchV { courses := [], pagination := mkPagination 1 10 0,
                                   query := "lean" }),
          cached := some true } :=
  ⟨(c10_search_unavailable_cached s0 (some "lean") none none 1 10 0 rfl rfl
      (by decide) (by decide)).1,
   (c10_search_unavailable_cached s0 (some "lean") none none 1 10 0 rfl rfl
      (by decide) (by decide)).2 [] ⟨true, []⟩ 0 50 (by decide) (by decide)⟩

end CourseService
